import Mathlib

/-!
Verification of the 3d-ball-simulation repository (Python) against its
natural-language specification.

The Python modules under `src/simulation/` are shallowly embedded below:
pure fragments become Lean functions, the mutable `BackendStressManager`
and visualizer widget state become explicit state passing, Python `float`
values become an exact model (`PyFloat`) with NaN and signed infinities
over `ℚ`, and fallible code returns `Except`.
-/

/-- Model of a Python `float` value: a finite value (modelled exactly by a
rational), NaN, or a signed infinity.  Python float arithmetic follows
IEEE-754 special-value rules, except that division by zero raises
`ZeroDivisionError` instead of producing an infinity. -/
inductive PyFloat
  | fin (q : ℚ)
  | nan
  | inf
  | ninf
deriving DecidableEq

namespace PyFloat

/-- `math.isnan(v) or math.isinf(v)` for a Python float `v`. -/
def isNanOrInf : PyFloat → Bool
  | fin _ => false
  | _ => true

/-- Python float addition (IEEE-754 special-value rules). -/
def add : PyFloat → PyFloat → PyFloat
  | fin a, fin b => fin (a + b)
  | nan, _ => nan
  | _, nan => nan
  | inf, ninf => nan
  | ninf, inf => nan
  | inf, _ => inf
  | _, inf => inf
  | ninf, _ => ninf
  | _, ninf => ninf

/-- Python float subtraction (IEEE-754 special-value rules). -/
def sub : PyFloat → PyFloat → PyFloat
  | fin a, fin b => fin (a - b)
  | nan, _ => nan
  | _, nan => nan
  | inf, inf => nan
  | ninf, ninf => nan
  | inf, _ => inf
  | ninf, _ => ninf
  | _, inf => ninf
  | _, ninf => inf

/-- Python float multiplication (IEEE-754 special-value rules; in
particular `0 * inf` is NaN). -/
def mul : PyFloat → PyFloat → PyFloat
  | fin a, fin b => fin (a * b)
  | nan, _ => nan
  | _, nan => nan
  | inf, inf => inf
  | inf, ninf => ninf
  | ninf, inf => ninf
  | ninf, ninf => inf
  | inf, fin b => if 0 < b then inf else if b < 0 then ninf else nan
  | fin a, inf => if 0 < a then inf else if a < 0 then ninf else nan
  | ninf, fin b => if 0 < b then ninf else if b < 0 then inf else nan
  | fin a, ninf => if 0 < a then ninf else if a < 0 then inf else nan

end PyFloat

/-- Python `int(x)` applied to a finite float: truncation toward zero. -/
def pyTrunc (q : ℚ) : ℤ :=
  if 0 ≤ q then ⌊q⌋ else ⌈q⌉

/-- Python `round(x)` with no `ndigits` argument on a finite float:
round half to even, returning an `int`. -/
def pyRound (q : ℚ) : ℤ :=
  let f := ⌊q⌋
  let frac := q - (f : ℚ)
  if frac < 1 / 2 then f
  else if 1 / 2 < frac then f + 1
  else if f % 2 = 0 then f else f + 1

/-- Python `min(a, b)` on two ints. -/
def pyMin (a b : ℤ) : ℤ :=
  if a ≤ b then a else b

/-- Python `max(a, b)` on two ints. -/
def pyMax (a b : ℤ) : ℤ :=
  if b ≤ a then a else b

/-- Numeric value of a list of decimal digit characters. -/
def digitsToNat (cs : List Char) : ℕ :=
  cs.foldl (fun n c => 10 * n + (c.toNat - 48)) 0

/-- Strip leading and trailing whitespace from a character list (the
whitespace stripping `int(s)` performs on its string argument). -/
def trimChars (cs : List Char) : List Char :=
  ((cs.dropWhile Char.isWhitespace).reverse.dropWhile Char.isWhitespace).reverse

/-- Parse a nonempty all-digit character list, `none` otherwise. -/
def parseUnsigned (cs : List Char) : Option ℕ :=
  if cs.isEmpty = false && cs.all Char.isDigit then some (digitsToNat cs) else none

/-- The kinds of Python exception the embedded code can raise. -/
inductive PyError
  | zeroDivision
  | valueError
  | overflowError
deriving DecidableEq

deriving instance DecidableEq for Except

/-- Python `int(s)` on a string: surrounding whitespace is stripped, an
optional sign is followed by decimal digits; anything else raises
`ValueError`. -/
def pyIntOfString (s : String) : Except PyError ℤ :=
  match trimChars s.toList with
  | '-' :: rest =>
    match parseUnsigned rest with
    | some n => Except.ok (-(n : ℤ))
    | none => Except.error PyError.valueError
  | '+' :: rest =>
    match parseUnsigned rest with
    | some n => Except.ok (n : ℤ)
    | none => Except.error PyError.valueError
  | cs =>
    match parseUnsigned cs with
    | some n => Except.ok (n : ℤ)
    | none => Except.error PyError.valueError

/-- The cap-parsing step of `ParticleVisualizer.get_slider_values`
(src/simulation/visualizer.py line 332):
`int(self.max_balls_cap[...]) if self.max_balls_cap[...] else 100000`.
A Python string is truthy exactly when it is nonempty. -/
def read_max_cap (v : String) : Except PyError ℤ :=
  if v ≠ "" then pyIntOfString v else Except.ok 100000

/-- Opaque device-array handle produced by the external allocator. -/
inductive GpuArray
  | cupyArr (n : ℕ)
  | torchArr (n : ℕ)
deriving DecidableEq

/-- Modelled from the spec: the `gpu_setup` module is not under `src/`.
The external-interface contract (spec section 6) is
`setup(particle_count, library) → (device_handle, host_mirror)`,
one call per required duplicate; `setup_cupy_arrays` is its CuPy kind. -/
def setup_cupy_arrays (n : ℕ) (_library : Option Unit) : GpuArray × GpuArray :=
  (GpuArray.cupyArr n, GpuArray.cupyArr n)

/-- Modelled from the spec: the `gpu_setup` module is not under `src/`.
`setup_torch_arrays` is the Torch kind of the external allocator contract. -/
def setup_torch_arrays (n : ℕ) (_library : Option Unit) : GpuArray × GpuArray :=
  (GpuArray.torchArr n, GpuArray.torchArr n)

/-- State of `BackendStressManager`
(src/simulation/backend_stress.py lines 6-12). -/
structure BackendStressManager where
  backend_arrays : List GpuArray
  backend_multiplier : ℤ
  method : Option String
  library : Option Unit
deriving DecidableEq

/-- `BackendStressManager.__init__`. -/
def bsm_new : BackendStressManager :=
  { backend_arrays := [], backend_multiplier := 1, method := none, library := none }

/-- One iteration of the duplicate-allocation loop
(src/simulation/backend_stress.py lines 22-28 and 46-52): a recognized
method allocates one array set, an unrecognized method hits `continue`. -/
def alloc_step (method : String) (library : Option Unit) (n : ℕ) : Option GpuArray :=
  if method = "cupy" then some (setup_cupy_arrays n library).1
  else if method = "torch" then some (setup_torch_arrays n library).1
  else none

/-- The `for i in range(k)` duplicate-allocation loop, appending the result
of each non-skipped iteration. -/
def alloc_duplicates (method : String) (library : Option Unit) (n : ℕ) : ℕ → List GpuArray
  | 0 => []
  | k + 1 => alloc_duplicates method library n k ++ (alloc_step method library n).toList

/-- Truthiness of `self._method` (a Python string or `None`): truthy
exactly when it is a nonempty string. -/
def method_truthy : Option String → Bool
  | none => false
  | some s => s ≠ ""

/-- `BackendStressManager.initialize`
(src/simulation/backend_stress.py lines 14-31).  Note the multiplier is
stored as given, without clamping. -/
def bsm_init (method : String) (library : Option Unit) (particle_count : ℕ)
    (backend_multiplier : ℤ) (s : BackendStressManager) : BackendStressManager :=
  let s1 : BackendStressManager :=
    { s with method := some method, library := library,
             backend_multiplier := backend_multiplier, backend_arrays := [] }
  if 1 < backend_multiplier then
    { s1 with backend_arrays :=
        alloc_duplicates method library particle_count (backend_multiplier - 1).toNat }
  else s1

/-- `BackendStressManager.update_multiplier`
(src/simulation/backend_stress.py lines 33-55): the argument is clamped to
`[1, 100]`, the duplicate list is rebuilt from scratch, and duplicates are
reallocated only when the clamped multiplier exceeds 1 and both the stored
method and library are truthy. -/
def update_multiplier (new_multiplier : ℤ) (particle_count : ℕ)
    (s : BackendStressManager) : BackendStressManager :=
  let m1 := if new_multiplier < 1 then 1 else new_multiplier
  let m2 := if 100 < m1 then 100 else m1
  let s1 : BackendStressManager := { s with backend_multiplier := m2, backend_arrays := [] }
  if 1 < m2 ∧ method_truthy s.method = true ∧ s.library.isSome = true then
    { s1 with backend_arrays :=
        alloc_duplicates (s.method.getD "") s.library particle_count (m2 - 1).toNat }
  else s1

/-- `BackendStressManager.get_multiplier`
(src/simulation/backend_stress.py lines 67-68), a pure read. -/
def get_multiplier (s : BackendStressManager) : ℤ :=
  s.backend_multiplier

/-- `BackendStressManager.get_array_count`
(src/simulation/backend_stress.py lines 70-71), a pure read. -/
def get_array_count (s : BackendStressManager) : ℕ :=
  s.backend_arrays.length

/-- State of one slider dict entry of `ParticleVisualizer.sliders`
(src/simulation/visualizer.py lines 47-51).  Positions and widths are
Python ints in the source; `min`, `max` and `value` are floats. -/
structure SliderState where
  value : PyFloat
  min : PyFloat
  max : PyFloat
  posx : ℤ
  posy : ℤ
  width : ℤ
  label : String
  is_int : Bool
deriving DecidableEq

/-- The raw value computed by `ParticleVisualizer._update_slider_value`
(src/simulation/visualizer.py lines 309-311) before the NaN/Inf guard:
`mouse_x = max(x, min(mouse_x, x + width))`,
`normalized = (mouse_x - x) / width`,
`value = slider['min'] + normalized * (slider['max'] - slider['min'])`.
Defined for nonzero width; the integer division producing `normalized`
is exact here because clamped ints divide to a rational. -/
def raw_slider_value (s : SliderState) (mouse_x : ℤ) : PyFloat :=
  let mx := pyMax s.posx (pyMin mouse_x (s.posx + s.width))
  PyFloat.add s.min
    (PyFloat.mul (PyFloat.fin (((mx - s.posx : ℤ) : ℚ) / (s.width : ℚ)))
      (PyFloat.sub s.max s.min))

/-- `ParticleVisualizer._update_slider_value`
(src/simulation/visualizer.py lines 304-320).  In Python, dividing by a
zero width raises `ZeroDivisionError` (floats never produce NaN from
`0/0` there); otherwise a NaN/infinite result is reset to `min`, and an
integer-flagged slider rounds the value with `round`, which itself raises
`ValueError` on NaN and `OverflowError` on an infinity. -/
def update_slider_value (s : SliderState) (mouse_x : ℤ) : Except PyError SliderState :=
  if s.width = 0 then Except.error PyError.zeroDivision
  else
    let v0 := raw_slider_value s mouse_x
    let v1 := if v0.isNanOrInf then s.min else v0
    if s.is_int then
      match v1 with
      | PyFloat.fin q => Except.ok { s with value := PyFloat.fin ((pyRound q : ℤ) : ℚ) }
      | PyFloat.nan => Except.error PyError.valueError
      | PyFloat.inf => Except.error PyError.overflowError
      | PyFloat.ninf => Except.error PyError.overflowError
    else Except.ok { s with value := v1 }

/-- Hit test of `ParticleVisualizer._handle_slider_click`
(src/simulation/visualizer.py line 295):
`x <= mx <= x + width and y - 12 <= my <= y + 32`. -/
def slider_hit (s : SliderState) (mx my : ℤ) : Bool :=
  s.posx ≤ mx && mx ≤ s.posx + s.width && s.posy - 12 ≤ my && my ≤ s.posy + 32

/-- Widget state of `ParticleVisualizer` relevant to slider interaction:
the slider dict (insertion-ordered, so a list of key/state pairs) and
`dragging_slider`. -/
structure VisState where
  sliders : List (String × SliderState)
  dragging : Option String
deriving DecidableEq

/-- `ParticleVisualizer._handle_slider_click`
(src/simulation/visualizer.py lines 290-298): scan the sliders in dict
order, and on the first hit set `dragging_slider` to that key, update its
value from the pointer x, and stop. -/
def handle_slider_click (v : VisState) (mx my : ℤ) : Except PyError VisState :=
  match v.sliders.find? (fun kv => slider_hit kv.2 mx my) with
  | none => Except.ok v
  | some (k, s) =>
    match update_slider_value s mx with
    | Except.error e => Except.error e
    | Except.ok s1 =>
      Except.ok { v with dragging := some k,
                         sliders := v.sliders.map (fun kv => if kv.1 = k then (k, s1) else kv) }

/-- The three sliders as constructed by `ParticleVisualizer.__init__`
(src/simulation/visualizer.py lines 47-51), in dict insertion order. -/
def init_sliders : List (String × SliderState) :=
  [("gravity",
    { value := PyFloat.fin 500, min := PyFloat.fin 0, max := PyFloat.fin 10000,
      posx := 0, posy := 0, width := 220, label := "Big Ball Gravity", is_int := false }),
   ("small_ball_speed",
    { value := PyFloat.fin 300, min := PyFloat.fin 50, max := PyFloat.fin 600,
      posx := 0, posy := 0, width := 220, label := "Small Ball Speed", is_int := false }),
   ("initial_balls",
    { value := PyFloat.fin 1, min := PyFloat.fin 1, max := PyFloat.fin 10,
      posx := 0, posy := 0, width := 300, label := "Initial Balls", is_int := true })]

/-- The slider part of `ParticleVisualizer._layout_controls`
(src/simulation/visualizer.py lines 112-131): walk the ordered sliders
assigning `pos = (x, control_y)` and `width = 300`, advancing
`x` by `slider_width + spacing = 318` each step. -/
def layout_go (y : ℤ) : ℤ → List (String × SliderState) → List (String × SliderState)
  | _, [] => []
  | x, (k, s) :: rest =>
    (k, { s with posx := x, posy := y, width := 300 }) :: layout_go y (x + 300 + 18) rest

/-- `ParticleVisualizer._layout_controls` applied to the sliders: the
first x is `margin = 40` and `control_y = max(40, window_height - 80)`. -/
def layout_controls (window : ℤ × ℤ) (ss : List (String × SliderState)) :
    List (String × SliderState) :=
  layout_go (pyMax 40 (window.2 - 80)) 40 ss

/-- The visualizer slider state right after construction at the default
window size (1600, 1000), with no drag in progress. -/
def vis_default : VisState :=
  { sliders := layout_controls (1600, 1000) init_sliders, dragging := none }

/-- `scale_x` of `ParticleVisualizer.render_frame`
(src/simulation/visualizer.py line 170): `window_width / 1000.0`. -/
def scale_x (window : ℤ × ℤ) : ℚ :=
  (window.1 : ℚ) / 1000

/-- `scale_y` of `ParticleVisualizer.render_frame`
(src/simulation/visualizer.py line 171): `window_height / 800.0`. -/
def scale_y (window : ℤ × ℤ) : ℚ :=
  (window.2 : ℚ) / 800

/-- World→screen mapping of `ParticleVisualizer.render_frame`
(src/simulation/visualizer.py lines 174-175 and 202-203):
`screen = (int(wx * scale_x), int(wy * scale_y))`. -/
def worldToScreen (window : ℤ × ℤ) (wx wy : ℚ) : ℤ × ℤ :=
  (pyTrunc (wx * scale_x window), pyTrunc (wy * scale_y window))

/-- Screen radius of a boundary ring in `ParticleVisualizer.render_frame`
(src/simulation/visualizer.py line 176):
`max(10, int(bradius * min(scale_x, scale_y)))`. -/
def boundary_screen_radius (bradius sx sy : ℚ) : ℤ :=
  pyMax 10 (pyTrunc (bradius * min sx sy))

/-- The guard of the primary boundary ring draw
(src/simulation/visualizer.py line 178): drawn iff `screen_radius > 5`. -/
def draws_primary_ring (bradius sx sy : ℚ) : Bool :=
  5 < boundary_screen_radius bradius sx sy

/-- One brightened halo base channel in `ParticleVisualizer.render_frame`
(src/simulation/visualizer.py lines 223-227):
`min(255, int(base_color[c] * 1.3))` for a base channel value `c ≥ 0`. -/
def base_glow_channel (c : ℕ) : ℤ :=
  min 255 (pyTrunc ((c : ℚ) * (13 / 10)))

/-- Halo radius in `ParticleVisualizer.render_frame`
(src/simulation/visualizer.py line 229):
`glow_radius = radius + int(3 + 5 * glow_intensity)`. -/
def halo_radius (radius : ℤ) (glow : ℚ) : ℤ :=
  radius + pyTrunc (3 + 5 * glow)

/-- Final halo channel in `ParticleVisualizer.render_frame`
(src/simulation/visualizer.py lines 230-232):
`min(255, int(base_glow[c] * (0.8 + 0.4 * glow_intensity)))`. -/
def halo_channel (c : ℕ) (glow : ℚ) : ℤ :=
  min 255 (pyTrunc ((base_glow_channel c : ℚ) * (4 / 5 + 2 / 5 * glow)))

/-- A degenerate slider configuration whose width is zero. -/
def zero_width_slider : SliderState :=
  { value := PyFloat.fin 0, min := PyFloat.fin 0, max := PyFloat.fin 10,
    posx := 100, posy := 920, width := 0, label := "Degenerate", is_int := false }

/-- A slider configuration whose maximum is the float infinity, making
the computed value infinite for any pointer strictly past the left edge. -/
def inf_max_slider : SliderState :=
  { value := PyFloat.fin 0, min := PyFloat.fin 0, max := PyFloat.inf,
    posx := 0, posy := 0, width := 100, label := "Inf", is_int := false }

/-- A slider configuration with min greater than max. -/
def inverted_slider : SliderState :=
  { value := PyFloat.fin 10, min := PyFloat.fin 10, max := PyFloat.fin 0,
    posx := 0, posy := 0, width := 100, label := "Inverted", is_int := false }

/-- The default visualizer slider state while the `gravity` slider is
being dragged. -/
def vis_dragging_gravity : VisState :=
  { sliders := layout_controls (1600, 1000) init_sliders, dragging := some "gravity" }

/-- The `small_ball_speed` slider after `_layout_controls` at window
size (1600, 1000): position (358, 920), width 300. -/
def speed_slider_laid_out : SliderState :=
  { value := PyFloat.fin 300, min := PyFloat.fin 50, max := PyFloat.fin 600,
    posx := 358, posy := 920, width := 300, label := "Small Ball Speed", is_int := false }

/-! ## Helper lemmas -/

/-- `pyMin` agrees with the order-theoretic minimum on ℤ. -/
theorem pyMin_eq (a b : ℤ) : pyMin a b = min a b := by
  unfold pyMin
  split <;> omega

/-- `pyMax` agrees with the order-theoretic maximum on ℤ. -/
theorem pyMax_eq (a b : ℤ) : pyMax a b = max a b := by
  unfold pyMax
  split <;> omega

/-- Truncation toward zero is monotone. -/
theorem pyTrunc_mono {p q : ℚ} (h : p ≤ q) : pyTrunc p ≤ pyTrunc q := by
  unfold pyTrunc
  by_cases hp : 0 ≤ p
  · rw [if_pos hp, if_pos (le_trans hp h)]
    exact Int.floor_mono h
  · rw [if_neg hp]
    by_cases hq : 0 ≤ q
    · rw [if_pos hq]
      have h1 : ⌈p⌉ ≤ 0 := Int.ceil_le.mpr (by exact_mod_cast le_of_lt (lt_of_not_le hp))
      have h2 : 0 ≤ ⌊q⌋ := Int.floor_nonneg.mpr hq
      omega
    · rw [if_neg hq]
      exact Int.ceil_mono h

/-- Truncation toward zero preserves nonnegativity. -/
theorem pyTrunc_nonneg {q : ℚ} (h : 0 ≤ q) : 0 ≤ pyTrunc q := by
  unfold pyTrunc
  rw [if_pos h]
  exact Int.floor_nonneg.mpr h

/-- Half-even rounding is bounded below by the floor. -/
theorem pyRound_ge_floor (q : ℚ) : ⌊q⌋ ≤ pyRound q := by
  simp only [pyRound]
  split_ifs <;> omega

/-- Half-even rounding is bounded above by the floor plus one. -/
theorem pyRound_le_floor_add_one (q : ℚ) : pyRound q ≤ ⌊q⌋ + 1 := by
  simp only [pyRound]
  split_ifs <;> omega

/-- Half-even rounding fixes integers. -/
theorem pyRound_intCast (z : ℤ) : pyRound (z : ℚ) = z := by
  simp [pyRound, Int.floor_intCast]

/-- An integer lower bound passes through half-even rounding. -/
theorem le_pyRound_of_intCast_le {z : ℤ} {q : ℚ} (h : (z : ℚ) ≤ q) : z ≤ pyRound q :=
  le_trans (Int.le_floor.mpr h) (pyRound_ge_floor q)

/-- An integer upper bound passes through half-even rounding. -/
theorem pyRound_le_of_le_intCast {z : ℤ} {q : ℚ} (h : q ≤ (z : ℚ)) : pyRound q ≤ z := by
  rcases eq_or_lt_of_le h with heq | hlt
  · rw [heq, pyRound_intCast]
  · have hf : ⌊q⌋ < z := Int.floor_lt.mpr hlt
    have := pyRound_le_floor_add_one q
    omega

/-- If every iteration of the duplicate loop is skipped, the list is empty. -/
theorem alloc_duplicates_none {method : String} {library : Option Unit} {n : ℕ}
    (h : alloc_step method library n = none) (k : ℕ) :
    alloc_duplicates method library n k = [] := by
  induction k with
  | zero => rfl
  | succ k ih => simp [alloc_duplicates, ih, h]

/-- If every iteration of the duplicate loop allocates, the list has one
entry per iteration. -/
theorem alloc_duplicates_length_some {method : String} {library : Option Unit} {n : ℕ}
    (h : (alloc_step method library n).isSome = true) (k : ℕ) :
    (alloc_duplicates method library n k).length = k := by
  induction k with
  | zero => rfl
  | succ k ih =>
    rcases Option.isSome_iff_exists.mp h with ⟨a, ha⟩
    simp [alloc_duplicates, ha, ih]

/-- An unrecognized method makes every loop iteration hit `continue`. -/
theorem alloc_step_unrecognized {method : String} {library : Option Unit} {n : ℕ}
    (h1 : method ≠ "cupy") (h2 : method ≠ "torch") :
    alloc_step method library n = none := by
  unfold alloc_step
  rw [if_neg h1, if_neg h2]

/-- The multiplier stored by `update_multiplier` is the argument clamped
to `[1, 100]`. -/
theorem get_multiplier_update (m : ℤ) (n : ℕ) (s : BackendStressManager) :
    get_multiplier (update_multiplier m n s) =
      if 100 < (if m < 1 then 1 else m) then 100 else (if m < 1 then 1 else m) := by
  simp only [update_multiplier, get_multiplier]
  split <;> split <;> split <;> rfl

/-- With nonzero width and a finite minimum, the slider update returns
normally, and a NaN/infinite raw value is replaced by the minimum
(rounded when the slider is integer-flagged). -/
theorem update_slider_value_ok (s : SliderState) (mouse_x : ℤ) (m : ℚ)
    (hw : s.width ≠ 0) (hmin : s.min = PyFloat.fin m) :
    ∃ s1, update_slider_value s mouse_x = Except.ok s1 ∧
      ((raw_slider_value s mouse_x).isNanOrInf = true →
        s1.value = if s.is_int then PyFloat.fin ((pyRound m : ℤ) : ℚ)
          else PyFloat.fin m) := by
  simp only [update_slider_value, if_neg hw]
  by_cases hnan : (raw_slider_value s mouse_x).isNanOrInf = true
  · rw [if_pos hnan, hmin]
    by_cases hint : s.is_int = true
    · rw [if_pos hint]
      exact ⟨_, rfl, fun _ => by rw [if_pos hint]⟩
    · rw [if_neg hint]
      exact ⟨_, rfl, fun _ => by rw [if_neg hint]⟩
  · rw [if_neg hnan]
    cases hv : raw_slider_value s mouse_x with
    | fin q =>
      by_cases hint : s.is_int = true
      · rw [if_pos hint]
        exact ⟨_, rfl, fun h => by simp [PyFloat.isNanOrInf] at h⟩
      · rw [if_neg hint]
        exact ⟨_, rfl, fun h => by simp [PyFloat.isNanOrInf] at h⟩
    | nan => rw [hv] at hnan; exact absurd rfl hnan
    | inf => rw [hv] at hnan; exact absurd rfl hnan
    | ninf => rw [hv] at hnan; exact absurd rfl hnan

/-- The clamped-pointer fraction `(clamped - x) / width` lies in `[0, 1]`
for any nonzero width. -/
theorem normalized_mem_unit (x w mouse_x : ℤ) (hw : w ≠ 0) :
    0 ≤ ((pyMax x (pyMin mouse_x (x + w)) - x : ℤ) : ℚ) / (w : ℚ) ∧
    ((pyMax x (pyMin mouse_x (x + w)) - x : ℤ) : ℚ) / (w : ℚ) ≤ 1 := by
  rw [pyMax_eq, pyMin_eq]
  rcases lt_or_gt_of_ne hw with hneg | hpos
  · have hclamp : max x (min mouse_x (x + w)) = x := by
      have h1 : min mouse_x (x + w) ≤ x + w := min_le_right _ _
      omega
    rw [hclamp]
    norm_num
  · have h1 : (0 : ℤ) ≤ max x (min mouse_x (x + w)) - x := by
      have := le_max_left x (min mouse_x (x + w))
      omega
    have h2 : max x (min mouse_x (x + w)) - x ≤ w := by
      have ha : min mouse_x (x + w) ≤ x + w := min_le_right _ _
      have hb : max x (min mouse_x (x + w)) ≤ x + w := max_le (by omega) ha
      omega
    have hwq : (0 : ℚ) < (w : ℚ) := by exact_mod_cast hpos
    constructor
    · apply div_nonneg _ (le_of_lt hwq)
      exact_mod_cast h1
    · rw [div_le_one hwq]
      exact_mod_cast h2

/-! ## Claims -/

/-- C1: the claim states that after any call to `initialize` or
`update_multiplier` the multiplier is in `[1, 100]`.  Counterexample:
`initialize` stores its argument unclamped, so initializing with
multiplier 0 leaves `get_multiplier() == 0`, below the claimed range. -/
theorem C1_counterexample :
    get_multiplier (bsm_init "cupy" none 10 0 bsm_new) = 0 ∧
    ¬ (1 ≤ get_multiplier (bsm_init "cupy" none 10 0 bsm_new)) := by
  decide

/-- C1 (amended): only `update_multiplier` clamps on write: after any
`update_multiplier(m, n)` the multiplier is in `[1, 100]`, and in
particular `update_multiplier(150, n)` yields 100 and
`update_multiplier(0, n)` yields 1; `initialize` stores its multiplier
argument unclamped. -/
theorem C1_update_multiplier_clamps (m : ℤ) (n : ℕ) (s : BackendStressManager) :
    (1 ≤ get_multiplier (update_multiplier m n s) ∧
      get_multiplier (update_multiplier m n s) ≤ 100) ∧
    get_multiplier (update_multiplier 150 n s) = 100 ∧
    get_multiplier (update_multiplier 0 n s) = 1 ∧
    get_multiplier (bsm_init "cupy" none 10 0 bsm_new) = 0 := by
  rw [get_multiplier_update, get_multiplier_update, get_multiplier_update]
  refine ⟨?_, by norm_num, by norm_num, by decide⟩
  split_ifs <;> omega

/-- C5: with a recognized stored method and a stored library, after
`update_multiplier(m, n)` with `m` in `[1, 100]` the duplicate array
count equals `m - 1` (in particular 4 for `m = 5`, and 0 for `m = 1`);
`get_multiplier` and `get_array_count` are pure reads of the state. -/
theorem C5_duplicate_count (s : BackendStressManager) (m : ℤ) (n : ℕ)
    (h1 : 1 ≤ m) (h2 : m ≤ 100)
    (hmeth : s.method = some "cupy" ∨ s.method = some "torch")
    (hlib : s.library = some ()) :
    get_array_count (update_multiplier m n s) = (m - 1).toNat := by
  have hm1 : ¬ m < 1 := by omega
  have hm2 : ¬ 100 < m := by omega
  simp only [update_multiplier, get_array_count, if_neg hm1, if_neg hm2]
  by_cases hgt : 1 < m
  · have htr : method_truthy s.method = true := by
      rcases hmeth with h | h <;> rw [h] <;> decide
    have hls : s.library.isSome = true := by rw [hlib]; rfl
    rw [if_pos ⟨hgt, htr, hls⟩]
    rcases hmeth with h | h <;>
      · rw [h]
        exact alloc_duplicates_length_some (by rfl) _
  · have hm : m = 1 := by omega
    subst hm
    norm_num

/-- C5 witness: a manager initialized with method `cupy` and a library,
after `update_multiplier(5, 1000)`, reports 4 duplicate arrays. -/
theorem C5_witness :
    get_array_count (update_multiplier 5 1000 (bsm_init "cupy" (some ()) 1000 1 bsm_new)) = 4 := by
  have h := C5_duplicate_count (bsm_init "cupy" (some ()) 1000 1 bsm_new) 5 1000
    (by decide) (by decide) (Or.inl rfl) rfl
  simpa using h

/-- C6: with a method other than `cupy` and `torch`, both `initialize`
and `update_multiplier` skip every duplicate allocation (so the calls
return normally with an empty duplicate list), and for multiplier at
least 2 that list is strictly shorter than stored multiplier minus 1. -/
theorem C6_unrecognized_method (method : String) (library : Option Unit)
    (pc : ℕ) (m : ℤ) (s s2 : BackendStressManager)
    (h1 : method ≠ "cupy") (h2 : method ≠ "torch") (hm : 2 ≤ m)
    (hs2 : s2.method = some method) :
    get_array_count (bsm_init method library pc m s) = 0 ∧
    (get_array_count (bsm_init method library pc m s) : ℤ) <
      get_multiplier (bsm_init method library pc m s) - 1 ∧
    get_array_count (update_multiplier m pc s2) = 0 ∧
    (get_array_count (update_multiplier m pc s2) : ℤ) <
      get_multiplier (update_multiplier m pc s2) - 1 := by
  have hstep : alloc_step method library pc = none := alloc_step_unrecognized h1 h2
  have hcount0 : get_array_count (bsm_init method library pc m s) = 0 := by
    simp only [bsm_init, get_array_count]
    rw [if_pos (by omega : (1 : ℤ) < m)]
    simp [alloc_duplicates_none hstep]
  have hmul : get_multiplier (bsm_init method library pc m s) = m := by
    simp only [bsm_init, get_multiplier]
    rw [if_pos (by omega : (1 : ℤ) < m)]
  have hcount2 : get_array_count (update_multiplier m pc s2) = 0 := by
    have hstep2 : alloc_step (s2.method.getD "") s2.library pc = none := by
      rw [hs2]
      exact alloc_step_unrecognized h1 h2
    simp only [update_multiplier, get_array_count]
    split <;> split <;> split <;> simp [alloc_duplicates_none hstep2]
  have hmul2 : get_multiplier (update_multiplier m pc s2) =
      if 100 < (if m < 1 then 1 else m) then 100 else (if m < 1 then 1 else m) :=
    get_multiplier_update m pc s2
  refine ⟨hcount0, ?_, hcount2, ?_⟩
  · rw [hcount0, hmul]; omega
  · rw [hcount2, hmul2]; split_ifs <;> omega

/-- C6 witness: method `opencl` with a library present, multiplier 5:
both calls leave zero duplicates, strictly fewer than multiplier − 1. -/
theorem C6_witness :
    get_array_count (bsm_init "opencl" (some ()) 10 5 bsm_new) = 0 ∧
    (get_array_count (bsm_init "opencl" (some ()) 10 5 bsm_new) : ℤ) <
      get_multiplier (bsm_init "opencl" (some ()) 10 5 bsm_new) - 1 ∧
    get_array_count (update_multiplier 5 10 (bsm_init "opencl" (some ()) 10 5 bsm_new)) = 0 ∧
    (get_array_count (update_multiplier 5 10 (bsm_init "opencl" (some ()) 10 5 bsm_new)) : ℤ) <
      get_multiplier (update_multiplier 5 10 (bsm_init "opencl" (some ()) 10 5 bsm_new)) - 1 :=
  C6_unrecognized_method "opencl" (some ()) 10 5 bsm_new
    (bsm_init "opencl" (some ()) 10 5 bsm_new) (by decide) (by decide) (by decide) rfl

/-- C7: for a fixed base particle, the halo radius
`radius + int(3 + 5 * glow)` and every halo color channel
`min(255, int(min(255, int(c * 1.3)) * (0.8 + 0.4 * glow)))` are
monotonically non-decreasing in `glow` on `[0, 1]`. -/
theorem C7_halo_monotone (c : ℕ) (radius : ℤ) (g1 g2 : ℚ)
    (h0 : 0 ≤ g1) (h12 : g1 ≤ g2) (h1 : g2 ≤ 1) :
    halo_radius radius g1 ≤ halo_radius radius g2 ∧
    halo_channel c g1 ≤ halo_channel c g2 := by
  constructor
  · unfold halo_radius
    have h : (3 : ℚ) + 5 * g1 ≤ 3 + 5 * g2 := by linarith
    exact add_le_add_left (pyTrunc_mono h) radius
  · unfold halo_channel
    have hb : (0 : ℤ) ≤ base_glow_channel c := by
      unfold base_glow_channel
      have hq : (0 : ℚ) ≤ (c : ℚ) * (13 / 10) := by positivity
      exact le_min (by norm_num) (pyTrunc_nonneg hq)
    have hbq : (0 : ℚ) ≤ (base_glow_channel c : ℚ) := by exact_mod_cast hb
    have hmul : (base_glow_channel c : ℚ) * (4 / 5 + 2 / 5 * g1) ≤
        (base_glow_channel c : ℚ) * (4 / 5 + 2 / 5 * g2) :=
      mul_le_mul_of_nonneg_left (by linarith) hbq
    exact min_le_min (le_refl 255) (pyTrunc_mono hmul)

/-- C7 witness: base channel 200, base radius 8, glow from 0 to 1. -/
theorem C7_witness :
    ((0 : ℚ) ≤ 0 ∧ (0 : ℚ) ≤ 1 ∧ (1 : ℚ) ≤ 1) ∧
    (halo_radius 8 0 ≤ halo_radius 8 1 ∧ halo_channel 200 0 ≤ halo_channel 200 1) :=
  ⟨by norm_num, C7_halo_monotone 200 8 0 1 (by norm_num) (by norm_num) (by norm_num)⟩

/-- C9: the world→screen mapping truncates `world * window/virtual` to
integer pixels per axis (virtual canvas 1000×800), and maps the world
point (500, 400) at window size (1600, 1000) to exactly (800, 500). -/
theorem C9_world_to_screen :
    worldToScreen (1600, 1000) 500 400 = (800, 500) ∧
    ∀ (window : ℤ × ℤ) (wx wy : ℚ),
      worldToScreen window wx wy =
        (pyTrunc (wx * ((window.1 : ℚ) / 1000)), pyTrunc (wy * ((window.2 : ℚ) / 800))) := by
  constructor
  · show (pyTrunc (500 * scale_x (1600, 1000)), pyTrunc (400 * scale_y (1600, 1000))) =
      ((800 : ℤ), (500 : ℤ))
    have hx : (500 : ℚ) * scale_x (1600, 1000) = 800 := by
      norm_num [scale_x]
    have hy : (400 : ℚ) * scale_y (1600, 1000) = 500 := by
      norm_num [scale_y]
    rw [hx, hy]
    norm_num [pyTrunc]
  · intro window wx wy
    rfl

/-- C10: the computed boundary ring radius `max(10, int(r * min(sx, sy)))`
is at least 10 for every boundary radius and scale pair, so the
`radius > 5` guard always passes and the primary ring is always drawn. -/
theorem C10_primary_ring_always (bradius sx sy : ℚ) :
    10 ≤ boundary_screen_radius bradius sx sy ∧
    draws_primary_ring bradius sx sy = true := by
  have h : (10 : ℤ) ≤ boundary_screen_radius bradius sx sy := by
    unfold boundary_screen_radius
    rw [pyMax_eq]
    exact le_max_left _ _
  have h5 : (5 : ℤ) < boundary_screen_radius bradius sx sy :=
    lt_of_lt_of_le (by norm_num) h
  exact ⟨h, by simpa [draws_primary_ring] using h5⟩

/-- C2: the claim states that the cap parse falls back to 100000 on any
parse failure and never raises.  Counterexample: for stored text "abc"
the code `int(v) if v else 100000` calls `int("abc")`, which raises
`ValueError` to the caller instead of returning the fallback. -/
theorem C2_counterexample :
    read_max_cap "abc" = Except.error PyError.valueError := by
  decide

/-- C2 (amended): the fixed fallback applies only to emptiness: empty
cap text reads as 100000 and "5000" reads as 5000, but a non-empty
unparsable string such as "abc" raises `ValueError` to the caller. -/
theorem C2_cap_parse :
    read_max_cap "" = Except.ok 100000 ∧
    read_max_cap "5000" = Except.ok 5000 ∧
    read_max_cap "abc" = Except.error PyError.valueError := by
  exact ⟨by decide, by decide, by decide⟩

/-- C3: the claim states `_update_slider_value` terminates without
raising for every slider configuration including a zero-width one.
Counterexample: with width 0 the Python division `(mouse_x - x) / width`
raises `ZeroDivisionError` (it never produces the NaN the guard would
catch). -/
theorem C3_counterexample :
    update_slider_value zero_width_slider 150 = Except.error PyError.zeroDivision := by
  rfl

/-- C3 (amended): for every slider whose width is nonzero and whose min
is finite, `_update_slider_value` terminates without raising, and when
the computed value is NaN or infinite the slider value is reset to min
(rounded when integer-flagged); a zero-width slider instead raises
`ZeroDivisionError`. -/
theorem C3_sanitize (s : SliderState) (mouse_x : ℤ) (m : ℚ)
    (hw : s.width ≠ 0) (hmin : s.min = PyFloat.fin m) :
    ∃ s1, update_slider_value s mouse_x = Except.ok s1 ∧
      ((raw_slider_value s mouse_x).isNanOrInf = true →
        s1.value = if s.is_int then PyFloat.fin ((pyRound m : ℤ) : ℚ)
          else PyFloat.fin m) :=
  update_slider_value_ok s mouse_x m hw hmin

/-- C3 witness: a slider with infinite max computes an infinite value at
pointer 50; the call returns normally with the value reset to min 0. -/
theorem C3_witness :
    ∃ s1, update_slider_value inf_max_slider 50 = Except.ok s1 ∧
      ((raw_slider_value inf_max_slider 50).isNanOrInf = true →
        s1.value = if inf_max_slider.is_int then PyFloat.fin ((pyRound 0 : ℤ) : ℚ)
          else PyFloat.fin 0) :=
  C3_sanitize inf_max_slider 50 0 (by decide) rfl

/-- C4: the claim states the resulting value lies in `[min, max]` for
all `(min, max)` pairs.  Counterexample: with min 10 and max 0 the
pointer midpoint yields value 5, which is not ≥ min. -/
theorem C4_counterexample :
    update_slider_value inverted_slider 50 =
      Except.ok { value := PyFloat.fin 5, min := PyFloat.fin 10, max := PyFloat.fin 0,
                  posx := 0, posy := 0, width := 100, label := "Inverted",
                  is_int := false } ∧
    ¬ ((10 : ℚ) ≤ 5) := by
  constructor
  · have hraw : raw_slider_value inverted_slider 50 = PyFloat.fin 5 := by
      simp only [raw_slider_value, inverted_slider, PyFloat.add, PyFloat.sub, PyFloat.mul,
        pyMax, pyMin, PyFloat.fin.injEq]
      norm_num
    simp only [update_slider_value, hraw, PyFloat.isNanOrInf]
    simp [inverted_slider]
  · norm_num

/-- C4 (amended): for all pointer x and every slider with finite bounds
min ≤ max, nonzero width, and integer bounds when integer-flagged, the
value-update rule yields a value in `[min, max]`, integral when the
slider is integer-flagged. -/
theorem C4_value_in_range (s : SliderState) (mouse_x : ℤ) (a b : ℚ)
    (hmin : s.min = PyFloat.fin a) (hmax : s.max = PyFloat.fin b) (hab : a ≤ b)
    (hw : s.width ≠ 0)
    (hint : s.is_int = true → (∃ za : ℤ, a = (za : ℚ)) ∧ ∃ zb : ℤ, b = (zb : ℚ)) :
    ∃ q : ℚ, update_slider_value s mouse_x = Except.ok { s with value := PyFloat.fin q } ∧
      a ≤ q ∧ q ≤ b ∧ (s.is_int = true → ∃ zq : ℤ, q = (zq : ℚ)) := by
  have hn := normalized_mem_unit s.posx s.width mouse_x hw
  set n : ℚ :=
    ((pyMax s.posx (pyMin mouse_x (s.posx + s.width)) - s.posx : ℤ) : ℚ) / (s.width : ℚ)
    with hndef
  have hraw : raw_slider_value s mouse_x = PyFloat.fin (a + n * (b - a)) := by
    rw [raw_slider_value, hmin, hmax]
    rfl
  set v : ℚ := a + n * (b - a) with hvdef
  have hva : a ≤ v := by nlinarith [hn.1, hn.2]
  have hvb : v ≤ b := by nlinarith [hn.1, hn.2]
  simp only [update_slider_value, if_neg hw, hraw, PyFloat.isNanOrInf, Bool.false_eq_true,
    if_false]
  by_cases hi : s.is_int = true
  · rw [if_pos hi]
    refine ⟨((pyRound v : ℤ) : ℚ), rfl, ?_, ?_, fun _ => ⟨pyRound v, rfl⟩⟩
    · rcases (hint hi).1 with ⟨za, hza⟩
      rw [hza]
      exact_mod_cast le_pyRound_of_intCast_le (by rw [← hza]; exact hva)
    · rcases (hint hi).2 with ⟨zb, hzb⟩
      rw [hzb]
      exact_mod_cast pyRound_le_of_le_intCast (by rw [← hzb]; exact hvb)
  · rw [if_neg hi]
    exact ⟨v, rfl, hva, hvb, fun h => absurd h hi⟩

/-- C4 witness: the laid-out integer-flagged `initial_balls` geometry
with bounds 1 and 10, width 300 at x 676, pointer at 700. -/
theorem C4_witness :
    ∃ q : ℚ,
      update_slider_value
        { value := PyFloat.fin 1, min := PyFloat.fin 1, max := PyFloat.fin 10,
          posx := 676, posy := 920, width := 300, label := "Initial Balls",
          is_int := true }
        700 =
        Except.ok { value := PyFloat.fin q, min := PyFloat.fin 1, max := PyFloat.fin 10,
                    posx := 676, posy := 920, width := 300, label := "Initial Balls",
                    is_int := true } ∧
      1 ≤ q ∧ q ≤ 10 ∧
      (SliderState.is_int { value := PyFloat.fin 1, min := PyFloat.fin 1,
                            max := PyFloat.fin 10, posx := 676, posy := 920, width := 300,
                            label := "Initial Balls", is_int := true } = true →
        ∃ zq : ℤ, q = (zq : ℚ)) :=
  C4_value_in_range
    { value := PyFloat.fin 1, min := PyFloat.fin 1, max := PyFloat.fin 10,
      posx := 676, posy := 920, width := 300, label := "Initial Balls", is_int := true }
    700 1 10 rfl rfl (by norm_num) (by decide) (fun _ => ⟨⟨1, by norm_num⟩, 10, by norm_num⟩)

/-- C8: at most one slider drags at a time (the drag state is a single
optional key), and a pointer-down inside slider B's horizontal span and
extended vertical hit box — hitting no other slider, as with the laid-out
panel's disjoint boxes — makes B the active drag regardless of any prior
drag. -/
theorem C8_single_active_drag (v : VisState) (mx my : ℤ) (k : String) (s : SliderState)
    (m : ℚ) (hmem : (k, s) ∈ v.sliders) (hhit : slider_hit s mx my = true)
    (huniq : ∀ p ∈ v.sliders, slider_hit p.2 mx my = true → p = (k, s))
    (hw : s.width ≠ 0) (hmin : s.min = PyFloat.fin m) :
    ∃ v1, handle_slider_click v mx my = Except.ok v1 ∧ v1.dragging = some k := by
  have hfind : v.sliders.find? (fun kv => slider_hit kv.2 mx my) = some (k, s) := by
    have hex : ∃ p ∈ v.sliders, (fun kv => slider_hit kv.2 mx my) p = true :=
      ⟨(k, s), hmem, hhit⟩
    rcases Option.isSome_iff_exists.mp (List.find?_isSome.mpr hex) with ⟨p, hp⟩
    have hp1 := List.find?_some hp
    have hp2 := List.mem_of_find?_eq_some hp
    rw [hp, huniq p hp2 hp1]
  rcases update_slider_value_ok s mx m hw hmin with ⟨s1, hok, _⟩
  refine ⟨{ v with dragging := some k,
                   sliders := v.sliders.map (fun kv => if kv.1 = k then (k, s1) else kv) },
    ?_, rfl⟩
  simp only [handle_slider_click, hfind, hok]

/-- C8 witness: with `gravity` already dragging, a pointer-down at
(400, 930) inside the laid-out `small_ball_speed` hit box leaves exactly
`small_ball_speed` as the active drag. -/
theorem C8_witness :
    ∃ v1, handle_slider_click vis_dragging_gravity 400 930 = Except.ok v1 ∧
      v1.dragging = some "small_ball_speed" :=
  C8_single_active_drag vis_dragging_gravity 400 930 "small_ball_speed"
    speed_slider_laid_out 50 (by decide) (by decide) (by decide) (by decide) rfl
